import Mathlib

/-!
Verification of the FSND capstone backend (Flask CRUD over actors/movies
behind bearer-token authorization).

The embedding follows `src/projects/capstone/starter/app.py` and
`models.py` directly.  The authorization module `auth.py` (with
`requires_auth`, `AuthError`, the token decoder, the JWT verifier and the
scope check) and `config.py` are imported by the application but are not
part of the source tree; those parts are modelled from the specification,
each such definition saying so in its doc comment.
-/

namespace Capstone

/-! ## Python list slicing

`paginate_results` in `app.py` returns `objects_formatted[start:end]`
where `start` and `end` may be negative (page 0 yields a negative start).
`pySlice` is the semantics of a Python slice `l[start:stop]` with step 1:
a negative bound counts from the end, then both bounds are clamped to
`[0, len]`. -/

/-- Python slice `l[start:stop]` (step 1): negative indices count from the
end of the list, bounds are clamped to `[0, length]`. -/
def pySlice {α : Type} (l : List α) (start stop : Int) : List α :=
  let n : Int := l.length
  let s : Int := if start < 0 then max 0 (n + start) else min start n
  let e : Int := if stop < 0 then max 0 (n + stop) else min stop n
  (l.drop s.toNat).take (e - s).toNat

/-! ## Pagination (`app.py`, `paginate_results`)

`ROWS_PER_PAGE = pagination['page_limit']` comes from the absent
`config.py`; it is carried as the parameter `rows` below.  The page number
defaults to 1 when the query string omits it; `page` is the integer the
request supplied. -/

/-- `paginate_results` from `app.py`: format every element of the
selection, then return the Python slice
`[(page-1)*rows : (page-1)*rows + rows]` of the formatted list.
`rows` stands for `ROWS_PER_PAGE` (from the absent `config.py`). -/
def paginate_results {α β : Type} (rows : Nat) (page : Int)
    (selection : List α) (format : α → β) : List β :=
  let start : Int := (page - 1) * rows
  let stop : Int := start + rows
  pySlice (selection.map format) start stop

/-! ## Records (`models.py`) -/

/-- An actor row (`models.py`, class `Actor`). -/
structure Actor where
  id : Nat
  name : String
  gender : String
  age : Int
  deriving Repr, DecidableEq

/-- `Actor.format` from `models.py`: the dictionary rendered into the
JSON body, carrying all four columns. -/
structure FormattedActor where
  id : Nat
  name : String
  gender : String
  age : Int
  deriving Repr, DecidableEq

def Actor.format (a : Actor) : FormattedActor :=
  { id := a.id, name := a.name, gender := a.gender, age := a.age }

/-- A movie row (`models.py`, class `Movie`).  `release_date` is kept as
an opaque string. -/
structure Movie where
  id : Nat
  title : String
  release_date : String
  deriving Repr, DecidableEq

/-- `Movie.format` from `models.py`. -/
structure FormattedMovie where
  id : Nat
  title : String
  release_date : String
  deriving Repr, DecidableEq

def Movie.format (m : Movie) : FormattedMovie :=
  { id := m.id, title := m.title, release_date := m.release_date }

/-! ## GET /actors and GET /movies (`app.py`) -/

/-- Outcome of a list route: either the paginated page of formatted
records, or an abort with an HTTP status and a message. -/
inductive ListResult (β : Type) where
  | ok (records : List β)
  | err (status : Nat) (message : String)
  deriving Repr, DecidableEq

/-- `get_actors` from `app.py`: paginate the selection; abort 404 with
message `no actors found in database.` when the page is empty. -/
def get_actors (rows : Nat) (page : Int) (selection : List Actor) :
    ListResult FormattedActor :=
  let actors_paginated := paginate_results rows page selection Actor.format
  if actors_paginated.length = 0 then
    .err 404 "no actors found in database."
  else
    .ok actors_paginated

/-- `get_movies` from `app.py`: paginate the selection; abort 404 with
message `no movies found` when the page is empty. -/
def get_movies (rows : Nat) (page : Int) (selection : List Movie) :
    ListResult FormattedMovie :=
  let movies_paginated := paginate_results rows page selection Movie.format
  if movies_paginated.length = 0 then
    .err 404 "no movies found"
  else
    .ok movies_paginated

/-! ## PATCH /actors/<id> and PATCH /movies/<id> (`app.py`) -/

/-- The JSON body of a PATCH on `/actors/<id>`: each field is present or
absent (`body.get(field, default)` in `edit_actors`). -/
structure ActorPatch where
  name : Option String
  gender : Option String
  age : Option Int
  deriving Repr, DecidableEq

/-- The field update performed by `edit_actors` in `app.py` on the record
found in the database: each of `name`, `age`, `gender` is taken from the
body when present and otherwise defaulted to the record's current value
(`body.get('name', actor_to_update.name)` etc.), then written back. -/
def edit_actors_apply (body : ActorPatch) (actor_to_update : Actor) : Actor :=
  let name := body.name.getD actor_to_update.name
  let age := body.age.getD actor_to_update.age
  let gender := body.gender.getD actor_to_update.gender
  { actor_to_update with name := name, age := age, gender := gender }

/-- The JSON body of a PATCH on `/movies/<id>`. -/
structure MoviePatch where
  title : Option String
  release_date : Option String
  deriving Repr, DecidableEq

/-- The field update performed by `edit_movies` in `app.py`:
`body.get('title', movie_to_update.title)` and
`body.get('release_date', movie_to_update.release_date)` are written back. -/
def edit_movies_apply (body : MoviePatch) (movie_to_update : Movie) : Movie :=
  let title := body.title.getD movie_to_update.title
  let release_date := body.release_date.getD movie_to_update.release_date
  { movie_to_update with title := title, release_date := release_date }

/-! ## Error handlers (`app.py`, lines 253-285)

An abort carries an HTTP status code and, optionally, a
`{'message': ...}` dictionary as its description; `get_error_message`
reads `error.description['message']` and falls back to a default text
when that lookup raises.  `AuthError` (raised by the absent `auth.py`) is
handled separately by `authentification_failed`. -/

/-- `AuthError` as consumed by `app.py`'s handler: a status code and the
`error['description']` string.  Modelled from the spec: `auth.py`, which
defines the class, is not in the source tree; `app.py` reads exactly
these two attributes. -/
structure AuthError where
  status_code : Nat
  description : String
  deriving Repr, DecidableEq

/-- `get_error_message` from `app.py`: return `error.description['message']`
when the abort attached one, else the default text. -/
def get_error_message (description : Option String) (default_text : String) :
    String :=
  description.getD default_text

/-- The JSON body every error handler in `app.py` returns. -/
structure ErrorResponse where
  success : Bool
  error : Nat
  message : String
  deriving Repr, DecidableEq

/-- The failures the application raises: `abort(400/404/422, ...)` with an
optional message dictionary, or an `AuthError` from the auth layer. -/
inductive Failure where
  | badRequest (description : Option String)
  | notFound (description : Option String)
  | unprocessableEntity (description : Option String)
  | auth (e : AuthError)
  deriving Repr, DecidableEq

/-- `unprocessable` handler (`@app.errorhandler(422)`). -/
def unprocessable (description : Option String) : ErrorResponse × Nat :=
  ({ success := false, error := 422,
     message := get_error_message description "unprocessable" }, 422)

/-- `bad_request` handler (`@app.errorhandler(400)`). -/
def bad_request (description : Option String) : ErrorResponse × Nat :=
  ({ success := false, error := 400,
     message := get_error_message description "bad request" }, 400)

/-- `ressource_not_found` handler (`@app.errorhandler(404)`). -/
def ressource_not_found (description : Option String) : ErrorResponse × Nat :=
  ({ success := false, error := 404,
     message := get_error_message description "resource not found" }, 404)

/-- `authentification_failed` handler (`@app.errorhandler(AuthError)`):
body `{success: False, error: status_code, message: error['description']}`
with the same status code as the HTTP status. -/
def authentification_failed (e : AuthError) : ErrorResponse × Nat :=
  ({ success := false, error := e.status_code, message := e.description },
   e.status_code)

/-- Dispatch of a raised failure to its registered handler. -/
def handle_failure : Failure → ErrorResponse × Nat
  | .badRequest d => bad_request d
  | .notFound d => ressource_not_found d
  | .unprocessableEntity d => unprocessable d
  | .auth e => authentification_failed e

/-! ## Authorization core

Modelled from the spec: `auth.py` (token decoder, signature/claims
verifier, scope authorizer, request guard) is imported by `app.py` but is
not in the source tree.  The definitions below follow the spec's
component design (sections 4.1-4.4) and its error taxonomy (section 7). -/

/-- Modelled from the spec: the error kinds of the absent `auth.py`,
spec section 7's taxonomy. -/
inductive AuthErrKind where
  | MissingHeader
  | MalformedHeader
  | MalformedToken
  | UnknownSigningKey
  | InvalidSignature
  | Expired
  | InvalidAudience
  | InvalidIssuer
  | NoPermissionsClaim
  | PermissionDenied
  deriving Repr, DecidableEq

/-- Modelled from the spec: HTTP status per error kind (spec section 7:
401 for authentication failures, 403 for the two authorization ones). -/
def AuthErrKind.status : AuthErrKind → Nat
  | .NoPermissionsClaim => 403
  | .PermissionDenied => 403
  | _ => 401

/-- Modelled from the spec: the `AuthError` each kind raises.  The spec
and the tests fix the status codes of every kind and the description
strings of `MissingHeader` (`Authorization header is expected.`) and
`PermissionDenied` (`Permission not found.`); the remaining descriptions
are human-readable texts naming the failed sub-check (spec section 4.4). -/
def AuthErrKind.toAuthError : AuthErrKind → AuthError
  | .MissingHeader => ⟨401, "Authorization header is expected."⟩
  | .MalformedHeader => ⟨401, "Authorization header must be bearer token."⟩
  | .MalformedToken => ⟨401, "Unable to parse authentication token."⟩
  | .UnknownSigningKey => ⟨401, "Unable to find the appropriate key."⟩
  | .InvalidSignature => ⟨401, "Signature verification failed."⟩
  | .Expired => ⟨401, "Token expired."⟩
  | .InvalidAudience => ⟨401, "Incorrect claims. Please, check the audience and issuer."⟩
  | .InvalidIssuer => ⟨401, "Incorrect claims. Please, check the audience and issuer."⟩
  | .NoPermissionsClaim => ⟨403, "Permissions not included in JWT."⟩
  | .PermissionDenied => ⟨403, "Permission not found."⟩

/-- The claims payload of a verified token (spec section 3): expiry
timestamp, audience, issuer, and an optional `permissions` field (absent
when the token was issued without scope information). -/
structure Payload where
  exp : Nat
  aud : String
  iss : String
  permissions : Option (List String)
  deriving Repr, DecidableEq

/-- A structurally decoded signed token: the header's key identifier and
the claims payload (spec section 3; the signature is checked through the
`sigOk` oracle below). -/
structure Jwt where
  kid : String
  payload : Payload
  deriving Repr, DecidableEq

/-- One step of splitting a character list on spaces: a space opens a new
fragment, any other character extends the current front fragment. -/
def addChar (c : Char) (acc : List (List Char)) : List (List Char) :=
  if c = ' ' then [] :: acc
  else
    match acc with
    | [] => [[c]]
    | w :: ws => (c :: w) :: ws

/-- Modelled from the spec (section 4.1): the part of the token decoder
that parses the `Authorization` header value into its space-separated
parts; empty fragments between consecutive spaces are discarded, matching
whitespace splitting.  The header is handled as its character list. -/
def authHeaderParts (header : String) : List (List Char) :=
  (header.data.foldr addChar [[]]).filter (fun w => w ≠ [])

/-- Modelled from the spec (section 4.1): the token decoder on the
optional `Authorization` header.  Absent header: `MissingHeader`; not
exactly two parts or first part (case-insensitively) not `bearer`:
`MalformedHeader`; otherwise the second part is the raw token. -/
def get_token_auth_header (header : Option String) :
    Except AuthErrKind (List Char) :=
  match header with
  | none => .error .MissingHeader
  | some h =>
    match authHeaderParts h with
    | [scheme, token] =>
      if scheme.map Char.toLower = "bearer".data then .ok token
      else .error .MalformedHeader
    | _ => .error .MalformedHeader

/-- Modelled from the spec (section 4.2): the signature/claims verifier.
`keys` is the signing key set (key identifier to public key), `sigOk`
the cryptographic signature check (an oracle: cryptography is outside
the embedding), `now` the current time, `expectedAud`/`expectedIss` the
configured audience and issuer.  The five checks run in the spec's fixed
order, each failure short-circuiting the rest. -/
def verify_decode_jwt (keys : List (String × String))
    (sigOk : Jwt → String → Bool) (now : Nat)
    (expectedAud expectedIss : String) (t : Jwt) :
    Except AuthErrKind Payload :=
  match keys.lookup t.kid with
  | none => .error .UnknownSigningKey
  | some key =>
    if ¬ sigOk t key then .error .InvalidSignature
    else if t.payload.exp ≤ now then .error .Expired
    else if t.payload.aud ≠ expectedAud then .error .InvalidAudience
    else if t.payload.iss ≠ expectedIss then .error .InvalidIssuer
    else .ok t.payload

/-- Modelled from the spec (section 4.3): the scope authorizer.  No
`permissions` field: `NoPermissionsClaim`; required scope not in the set
(exact string equality): `PermissionDenied`; else the payload unchanged. -/
def check_permissions (permission : String) (payload : Payload) :
    Except AuthErrKind Payload :=
  match payload.permissions with
  | none => .error .NoPermissionsClaim
  | some perms =>
    if permission ∈ perms then .ok payload
    else .error .PermissionDenied

/-- Modelled from the spec (sections 4.1-4.4): the request guard driving
decoder, verifier and scope authorizer for one request.  `decode` is the
structural token decode (base64/JSON parsing is outside the embedding);
a token that does not decode fails with `MalformedToken`. -/
def requires_auth (decode : List Char → Option Jwt)
    (keys : List (String × String)) (sigOk : Jwt → String → Bool)
    (now : Nat) (expectedAud expectedIss : String)
    (permission : String) (header : Option String) :
    Except AuthErrKind Payload :=
  match get_token_auth_header header with
  | .error k => .error k
  | .ok token =>
    match decode token with
    | none => .error .MalformedToken
    | some jwt =>
      match verify_decode_jwt keys sigOk now expectedAud expectedIss jwt with
      | .error k => .error k
      | .ok payload => check_permissions permission payload

/-- The request guard's externally observable outcome: on failure the
`AuthError` produced by the failing check is rendered by `app.py`'s
`authentification_failed` handler into the JSON body and HTTP status; on
success the payload reaches the route handler. -/
def guard_response (decode : List Char → Option Jwt)
    (keys : List (String × String)) (sigOk : Jwt → String → Bool)
    (now : Nat) (expectedAud expectedIss : String)
    (permission : String) (header : Option String) :
    Except (ErrorResponse × Nat) Payload :=
  match requires_auth decode keys sigOk now expectedAud expectedIss
      permission header with
  | .error k => .error (authentification_failed k.toAuthError)
  | .ok p => .ok p

/-! ## Theorems -/

/-- A Python slice `l[a : a + R]` with nonnegative start `a` is drop-then-take. -/
theorem pySlice_nonneg {α : Type} (l : List α) (a : Int) (R : Nat) (ha : 0 ≤ a) :
    pySlice l a (a + R) = (l.drop a.toNat).take R := by
  have h1 : ¬ a < 0 := not_lt.mpr ha
  have h2 : ¬ a + (R : Int) < 0 := by omega
  simp only [pySlice, h1, h2, if_false]
  by_cases hle : a ≤ (l.length : Int)
  · rw [min_eq_left hle]
    have hlen : (l.drop a.toNat).length = l.length - a.toNat := List.length_drop _ _
    have hmin : (min (a + (R : Int)) (l.length : Int) - a).toNat
        = min R (l.drop a.toNat).length := by
      rw [hlen]; omega
    rw [hmin, ← List.take_take, List.take_length]
  · push_neg at hle
    rw [min_eq_right (le_of_lt hle), min_eq_right (by omega)]
    rw [List.drop_eq_nil_of_le (by omega : l.length ≤ a.toNat)]
    simp

/-- A Python slice with stop bound `0` is empty, whatever the start bound. -/
theorem pySlice_stop_zero {α : Type} (l : List α) (a : Int) :
    pySlice l a 0 = [] := by
  simp only [pySlice]
  have h0 : ¬ (0 : Int) < 0 := by omega
  have hs : (0 : Int) ≤ if a < 0 then max 0 ((l.length : Int) + a)
      else min a l.length := by
    by_cases h : a < 0
    · simp [h]
    · simp [h]; omega
  simp only [h0, if_false]
  have hz : ((min (0 : Int) (l.length : Int)) -
      (if a < 0 then max 0 ((l.length : Int) + a) else min a l.length)).toNat
        = 0 := by
    have : min (0 : Int) (l.length : Int) = 0 := min_eq_left (by positivity)
    omega
  rw [hz]
  simp

/-- C8: for every selection list and every page parameter `p ≥ 1`,
`paginate_results` returns exactly the formatted elements of the
selection at indices `(p-1)*ROWS_PER_PAGE` up to but excluding
`p*ROWS_PER_PAGE`, in their original order, hence never more than
`ROWS_PER_PAGE` elements. -/
theorem paginate_results_window {α β : Type} (rows : Nat) (page : Int)
    (selection : List α) (format : α → β) (hp : 1 ≤ page) :
    paginate_results rows page selection format =
      ((selection.map format).drop ((page - 1) * rows).toNat).take rows ∧
    (paginate_results rows page selection format).length ≤ rows := by
  have h0 : 0 ≤ (page - 1) * (rows : Int) :=
    mul_nonneg (by omega) (by positivity)
  have heq : paginate_results rows page selection format =
      ((selection.map format).drop ((page - 1) * rows).toNat).take rows := by
    simp only [paginate_results]
    exact pySlice_nonneg _ _ _ h0
  exact ⟨heq, heq ▸ List.length_take_le _ _⟩

/-- C8 witness: page 2 with 2 rows per page over a 3-element selection. -/
theorem paginate_results_window_witness :
    paginate_results 2 2 ["a", "b", "c"] id =
      (((["a", "b", "c"] : List String).map id).drop (((2 : Int) - 1) * 2).toNat).take 2 ∧
    (paginate_results 2 2 ["a", "b", "c"] id).length ≤ 2 :=
  paginate_results_window 2 2 ["a", "b", "c"] id (by decide)

/-- C9: with page parameter 0 the slice bounds are `-ROWS_PER_PAGE` and
`0`, so `paginate_results` returns the empty list for every non-empty
selection, and an authorized `GET /actors?page=0` or
`GET /movies?page=0` responds 404 even though records exist. -/
theorem page_zero_responds_404 (rows : Nat) (actors : List Actor)
    (movies : List Movie) (hA : actors ≠ []) (hM : movies ≠ []) :
    paginate_results rows 0 actors Actor.format =
      pySlice (actors.map Actor.format) (-(rows : Int)) 0 ∧
    paginate_results rows 0 actors Actor.format = [] ∧
    get_actors rows 0 actors = .err 404 "no actors found in database." ∧
    get_movies rows 0 movies = .err 404 "no movies found" := by
  have hpag : ∀ {α β : Type} (sel : List α) (fmt : α → β),
      paginate_results rows 0 sel fmt = [] := by
    intro α β sel fmt
    simp only [paginate_results]
    rw [show ((0 : Int) - 1) * rows + rows = 0 by ring]
    exact pySlice_stop_zero _ _
  refine ⟨?_, hpag actors Actor.format, ?_, ?_⟩
  · simp only [paginate_results]
    rw [show ((0 : Int) - 1) * rows + rows = 0 by ring,
      show ((0 : Int) - 1) * rows = -(rows : Int) by ring]
  · simp [get_actors, hpag]
  · simp [get_movies, hpag]

/-- C9 witness: one actor and one movie in the database, page 0. -/
theorem page_zero_responds_404_witness :
    paginate_results 10 0 [Actor.mk 1 "Actor1" "Female" 25] Actor.format =
      pySlice ([Actor.mk 1 "Actor1" "Female" 25].map Actor.format) (-(10 : Int)) 0 ∧
    paginate_results 10 0 [Actor.mk 1 "Actor1" "Female" 25] Actor.format = [] ∧
    get_actors 10 0 [Actor.mk 1 "Actor1" "Female" 25] =
      .err 404 "no actors found in database." ∧
    get_movies 10 0 [Movie.mk 1 "Movie1" "2020-01-01"] =
      .err 404 "no movies found" :=
  page_zero_responds_404 10 [Actor.mk 1 "Actor1" "Female" 25]
    [Movie.mk 1 "Movie1" "2020-01-01"] (by decide) (by decide)

/-- C10: a successful PATCH changes only the fields present in the
body: every field the body omits keeps its previous value (omitted
fields default to the record's current values), and the id is never
changed. -/
theorem edit_preserves_omitted_fields (body : ActorPatch) (a : Actor)
    (mb : MoviePatch) (m : Movie) :
    ((body.name = none → (edit_actors_apply body a).name = a.name) ∧
     (body.age = none → (edit_actors_apply body a).age = a.age) ∧
     (body.gender = none → (edit_actors_apply body a).gender = a.gender) ∧
     (edit_actors_apply body a).id = a.id) ∧
    ((mb.title = none → (edit_movies_apply mb m).title = m.title) ∧
     (mb.release_date = none →
       (edit_movies_apply mb m).release_date = m.release_date) ∧
     (edit_movies_apply mb m).id = m.id) := by
  refine ⟨⟨?_, ?_, ?_, ?_⟩, ?_, ?_, ?_⟩ <;>
    try intro h
  all_goals simp_all [edit_actors_apply, edit_movies_apply]

/-- C10 witness: a body updating only the age leaves name, gender and id
untouched; a body updating only the title leaves the release date and id
untouched. -/
theorem edit_preserves_omitted_fields_witness :
    (edit_actors_apply (ActorPatch.mk none none (some 30))
      (Actor.mk 1 "Actor1" "Female" 25)).name = "Actor1" ∧
    (edit_actors_apply (ActorPatch.mk none none (some 30))
      (Actor.mk 1 "Actor1" "Female" 25)).gender = "Female" ∧
    (edit_actors_apply (ActorPatch.mk none none (some 30))
      (Actor.mk 1 "Actor1" "Female" 25)).id = 1 ∧
    (edit_movies_apply (MoviePatch.mk (some "New") none)
      (Movie.mk 1 "Movie1" "2020-01-01")).release_date = "2020-01-01" :=
  ⟨(edit_preserves_omitted_fields (ActorPatch.mk none none (some 30))
      (Actor.mk 1 "Actor1" "Female" 25) (MoviePatch.mk (some "New") none)
      (Movie.mk 1 "Movie1" "2020-01-01")).1.1 rfl,
   (edit_preserves_omitted_fields (ActorPatch.mk none none (some 30))
      (Actor.mk 1 "Actor1" "Female" 25) (MoviePatch.mk (some "New") none)
      (Movie.mk 1 "Movie1" "2020-01-01")).1.2.2.1 rfl,
   (edit_preserves_omitted_fields (ActorPatch.mk none none (some 30))
      (Actor.mk 1 "Actor1" "Female" 25) (MoviePatch.mk (some "New") none)
      (Movie.mk 1 "Movie1" "2020-01-01")).1.2.2.2,
   (edit_preserves_omitted_fields (ActorPatch.mk none none (some 30))
      (Actor.mk 1 "Actor1" "Female" 25) (MoviePatch.mk (some "New") none)
      (Movie.mk 1 "Movie1" "2020-01-01")).2.2.1 rfl⟩

/-- C1: the scope authorizer returns `NoPermissionsClaim` when the
payload has no `permissions` field, `PermissionDenied` when the set is
present but lacks the required scope under exact string equality, and
otherwise succeeds returning the payload unchanged — for every payload
and required scope. -/
theorem check_permissions_cases (payload : Payload) (permission : String) :
    (payload.permissions = none →
      check_permissions permission payload = .error .NoPermissionsClaim) ∧
    (∀ perms, payload.permissions = some perms → permission ∉ perms →
      check_permissions permission payload = .error .PermissionDenied) ∧
    (∀ perms, payload.permissions = some perms → permission ∈ perms →
      check_permissions permission payload = .ok payload) := by
  refine ⟨fun h => by simp [check_permissions, h],
    fun perms h hmem => by simp [check_permissions, h, hmem],
    fun perms h hmem => by simp [check_permissions, h, hmem]⟩

/-- C1 witness: the three cases at concrete payloads. -/
theorem check_permissions_cases_witness :
    check_permissions "delete:movies"
        (Payload.mk 10 "aud" "iss" (some ["read:actors"])) =
      .error .PermissionDenied ∧
    check_permissions "read:actors"
        (Payload.mk 10 "aud" "iss" (some ["read:actors"])) =
      .ok (Payload.mk 10 "aud" "iss" (some ["read:actors"])) ∧
    check_permissions "read:actors" (Payload.mk 10 "aud" "iss" none) =
      .error .NoPermissionsClaim :=
  ⟨(check_permissions_cases (Payload.mk 10 "aud" "iss" (some ["read:actors"]))
      "delete:movies").2.1 ["read:actors"] rfl (by decide),
   (check_permissions_cases (Payload.mk 10 "aud" "iss" (some ["read:actors"]))
      "read:actors").2.2 ["read:actors"] rfl (by decide),
   (check_permissions_cases (Payload.mk 10 "aud" "iss" none)
      "read:actors").1 rfl⟩

/-- C2: the verifier's checks run in the fixed order key lookup,
signature, expiry, audience, issuer, the first failing check deciding
the outcome; in particular any token whose expiry is at or before `now`
yields `Expired` once its key is found and its signature verifies,
whatever its audience and issuer. -/
theorem verify_decode_jwt_order (keys : List (String × String))
    (sigOk : Jwt → String → Bool) (now : Nat)
    (expectedAud expectedIss : String) (t : Jwt) :
    (keys.lookup t.kid = none →
      verify_decode_jwt keys sigOk now expectedAud expectedIss t =
        .error .UnknownSigningKey) ∧
    (∀ key, keys.lookup t.kid = some key → sigOk t key = false →
      verify_decode_jwt keys sigOk now expectedAud expectedIss t =
        .error .InvalidSignature) ∧
    (∀ key, keys.lookup t.kid = some key → sigOk t key = true →
      t.payload.exp ≤ now →
      verify_decode_jwt keys sigOk now expectedAud expectedIss t =
        .error .Expired) ∧
    (∀ key, keys.lookup t.kid = some key → sigOk t key = true →
      now < t.payload.exp → t.payload.aud ≠ expectedAud →
      verify_decode_jwt keys sigOk now expectedAud expectedIss t =
        .error .InvalidAudience) ∧
    (∀ key, keys.lookup t.kid = some key → sigOk t key = true →
      now < t.payload.exp → t.payload.aud = expectedAud →
      t.payload.iss ≠ expectedIss →
      verify_decode_jwt keys sigOk now expectedAud expectedIss t =
        .error .InvalidIssuer) ∧
    (∀ key, keys.lookup t.kid = some key → sigOk t key = true →
      now < t.payload.exp → t.payload.aud = expectedAud →
      t.payload.iss = expectedIss →
      verify_decode_jwt keys sigOk now expectedAud expectedIss t =
        .ok t.payload) := by
  refine ⟨fun h => by simp [verify_decode_jwt, h], ?_, ?_, ?_, ?_, ?_⟩
  · intro key hk hs
    simp [verify_decode_jwt, hk, hs]
  · intro key hk hs he
    simp [verify_decode_jwt, hk, hs, he]
  · intro key hk hs he ha
    simp [verify_decode_jwt, hk, hs, Nat.not_le.mpr he, ha]
  · intro key hk hs he ha hi
    simp [verify_decode_jwt, hk, hs, Nat.not_le.mpr he, ha, hi]
  · intro key hk hs he ha hi
    simp [verify_decode_jwt, hk, hs, Nat.not_le.mpr he, ha, hi]

/-- C2 witness: an expired token whose key is known, whose signature
verifies and whose audience and issuer match still fails with `Expired`. -/
theorem verify_decode_jwt_order_witness :
    verify_decode_jwt [("kid1", "pub1")] (fun _ _ => true) 100 "aud" "iss"
        (Jwt.mk "kid1" (Payload.mk 50 "aud" "iss" (some ["read:actors"]))) =
      .error .Expired :=
  (verify_decode_jwt_order [("kid1", "pub1")] (fun _ _ => true) 100 "aud"
      "iss" (Jwt.mk "kid1" (Payload.mk 50 "aud" "iss" (some ["read:actors"])))
    ).2.2.1 "pub1" (by decide) rfl (by decide)

/-- C6: the token decoder fails with `MalformedHeader` exactly when the
header value does not split into exactly two space-separated parts or
the first part, lowercased, is not `bearer`; headers with one part or
more than two parts are rejected, never passed on. -/
theorem get_token_auth_header_malformed (h : String) :
    (get_token_auth_header (some h) = .error .MalformedHeader ↔
      (authHeaderParts h).length ≠ 2 ∨
      (authHeaderParts h).head?.map (fun w => w.map Char.toLower) ≠
        some "bearer".data) ∧
    ((authHeaderParts h).length ≠ 2 →
      ∀ token, get_token_auth_header (some h) ≠ .ok token) := by
  rcases hl : authHeaderParts h with _ | ⟨a, _ | ⟨b, _ | ⟨c, rest⟩⟩⟩
  · simp [get_token_auth_header, hl]
  · simp [get_token_auth_header, hl]
  · by_cases hb : a.map Char.toLower = "bearer".data
    · simp [get_token_auth_header, hl, hb]
    · simp [get_token_auth_header, hl, hb]
  · simp [get_token_auth_header, hl]

/-- C6 witness: a three-part header and a schemeless one-part header are
both rejected with `MalformedHeader`; the latter is never passed on. -/
theorem get_token_auth_header_malformed_witness :
    get_token_auth_header (some "Bearer a b") = .error .MalformedHeader ∧
    get_token_auth_header (some "sometoken") ≠ .ok "sometoken".data :=
  ⟨(get_token_auth_header_malformed "Bearer a b").1.mpr (Or.inl (by decide)),
   (get_token_auth_header_malformed "sometoken").2 (by decide) "sometoken".data⟩

/-- C7: the authorization check is deterministic — the full verification
on identical inputs yields identical outcomes — and the scope check's
allow/deny decision is invariant under reordering of the permissions
set. -/
theorem authorization_deterministic :
    (∀ (decode : List Char → Option Jwt) (keys : List (String × String))
      (sigOk : Jwt → String → Bool) (now : Nat)
      (expectedAud expectedIss permission : String) (header : Option String),
      requires_auth decode keys sigOk now expectedAud expectedIss permission
          header =
        requires_auth decode keys sigOk now expectedAud expectedIss permission
          header) ∧
    (∀ (payload : Payload) (perms perms' : List String) (permission : String),
      payload.permissions = some perms → perms.Perm perms' →
      (check_permissions permission payload).map (fun _ => ()) =
        (check_permissions permission
          { payload with permissions := some perms' }).map (fun _ => ())) := by
  refine ⟨fun _ _ _ _ _ _ _ _ => rfl, ?_⟩
  intro payload perms perms' permission hp hperm
  by_cases hmem : permission ∈ perms
  · simp [check_permissions, hp, hmem, hperm.mem_iff.mp hmem, Except.map]
  · have hmem' : permission ∉ perms' := fun hc => hmem (hperm.mem_iff.mpr hc)
    simp [check_permissions, hp, hmem, hmem', Except.map]

/-- C7 witness: the decision on `["read:actors", "delete:movies"]` equals
the decision on its reordering. -/
theorem authorization_deterministic_witness :
    (check_permissions "delete:movies"
        (Payload.mk 10 "aud" "iss"
          (some ["read:actors", "delete:movies"]))).map (fun _ => ()) =
      (check_permissions "delete:movies"
        (Payload.mk 10 "aud" "iss"
          (some ["delete:movies", "read:actors"]))).map (fun _ => ()) :=
  authorization_deterministic.2
    (Payload.mk 10 "aud" "iss" (some ["read:actors", "delete:movies"]))
    ["read:actors", "delete:movies"] ["delete:movies", "read:actors"]
    "delete:movies" rfl (List.Perm.swap "delete:movies" "read:actors" [])

/-- C4: a request with no `Authorization` header is denied with status
401, `success = false` and message `Authorization header is expected.`,
whatever the route's required scope and the verifier's configuration. -/
theorem missing_header_401 (decode : List Char → Option Jwt)
    (keys : List (String × String)) (sigOk : Jwt → String → Bool)
    (now : Nat) (expectedAud expectedIss permission : String) :
    guard_response decode keys sigOk now expectedAud expectedIss permission
        none =
      .error ({ success := false, error := 401,
                message := "Authorization header is expected." }, 401) := rfl

/-- C3: a request carrying a fully verified token whose permissions set
lacks the route's required scope is denied with status 403,
`success = false` and message `Permission not found.`. -/
theorem denied_permission_403 (decode : List Char → Option Jwt)
    (keys : List (String × String)) (sigOk : Jwt → String → Bool)
    (now : Nat) (expectedAud expectedIss permission : String)
    (header : Option String) (token : List Char) (jwt : Jwt)
    (payload : Payload) (perms : List String)
    (h1 : get_token_auth_header header = .ok token)
    (h2 : decode token = some jwt)
    (h3 : verify_decode_jwt keys sigOk now expectedAud expectedIss jwt =
      .ok payload)
    (h4 : payload.permissions = some perms)
    (h5 : permission ∉ perms) :
    guard_response decode keys sigOk now expectedAud expectedIss permission
        header =
      .error ({ success := false, error := 403,
                message := "Permission not found." }, 403) := by
  simp [guard_response, requires_auth, h1, h2, h3, check_permissions, h4, h5,
    AuthErrKind.toAuthError, authentification_failed]

/-- C3 witness: a verified token granting only `read:actors` on a route
requiring `delete:movies`. -/
theorem denied_permission_403_witness :
    guard_response
        (fun _ => some (Jwt.mk "kid1"
          (Payload.mk 10 "aud" "iss" (some ["read:actors"]))))
        [("kid1", "pub1")] (fun _ _ => true) 5 "aud" "iss" "delete:movies"
        (some "Bearer abc") =
      .error ({ success := false, error := 403,
                message := "Permission not found." }, 403) :=
  denied_permission_403
    (fun _ => some (Jwt.mk "kid1"
      (Payload.mk 10 "aud" "iss" (some ["read:actors"]))))
    [("kid1", "pub1")] (fun _ _ => true) 5 "aud" "iss" "delete:movies"
    (some "Bearer abc") "abc".data
    (Jwt.mk "kid1" (Payload.mk 10 "aud" "iss" (some ["read:actors"])))
    (Payload.mk 10 "aud" "iss" (some ["read:actors"])) ["read:actors"]
    rfl rfl rfl rfl (by decide)

/-- C5: every failure the application raises is rendered as a JSON body
with `success = false` and an `error` field equal to the HTTP status
actually sent, the message being the one the failing check attached or
its handler's generic fallback text otherwise. -/
theorem failure_response_shape (f : Failure) :
    ((handle_failure f).1.success = false) ∧
    ((handle_failure f).1.error = (handle_failure f).2) ∧
    ((handle_failure f).1.message =
      match f with
      | .badRequest d => d.getD "bad request"
      | .notFound d => d.getD "resource not found"
      | .unprocessableEntity d => d.getD "unprocessable"
      | .auth e => e.description) := by
  cases f <;>
    simp [handle_failure, bad_request, ressource_not_found, unprocessable,
      authentification_failed, get_error_message]

end Capstone
